import Mathlib

/-!
A shallow embedding of the SEV-SNP attestation-report core of this repository:
the versioned binary report model (`src/firmware/guest/types/snp.rs`), the
request/response transport value objects (`src/firmware/linux/guest/types.rs`),
and the signature-verification protocol, together with theorems about the
frozen specification claims.

Byte buffers are modelled as `List Nat` whose elements are byte values
(`< 256`); machine integers are `Nat` with explicit truncation where the code
truncates.  Serialization follows bincode's default configuration used by the
crate: little-endian, fixed-width integers, fixed-size arrays written element
by element with no length prefix, struct fields written in declaration order.
-/

namespace Sev

/-- Little-endian encoding of a natural number into exactly `w` bytes: the
shallow embedding of how bincode (default fixint, little-endian configuration)
writes a `u8`/`u32`/`u64` field. -/
def toLEBytes : Nat → Nat → List Nat
  | 0, _ => []
  | w + 1, n => n % 256 :: toLEBytes w (n / 256)

/-- Little-endian decoding of a byte list into a natural number, least
significant byte first: how bincode reads a fixed-width integer field, and how
`u32::from_le_bytes` combines four bytes. -/
def fromLEBytes : List Nat → Nat
  | [] => 0
  | b :: bs => b + 256 * fromLEBytes bs

/-- A fixed-size byte array `[u8; n]`: a byte list of length exactly `n`. -/
def Bytes (n : Nat) : Type := { l : List Nat // l.length = n }

/-- The `w`-byte little-endian integer at offset `off` of a byte slice (a
fixed-width integer field of a fixed-layout struct, as bincode reads it). -/
def sliceUInt (s : List Nat) (off w : Nat) : Nat :=
  fromLEBytes ((s.drop off).take w)

/-- The `w`-byte array at offset `off` of a byte slice (a `[u8; w]` field of a
fixed-layout struct, as bincode reads it). -/
def sliceBytes (s : List Nat) (off w : Nat) (h : off + w ≤ s.length) : Bytes w :=
  ⟨(s.drop off).take w, by
    simp only [List.length_take, List.length_drop]
    omega⟩

/-- Modelled from the spec: `TcbVersion` (declared in `crate::firmware::host`,
not part of the provided sources) is a u64-based TCB version value occupying 8
bytes on the wire. -/
structure TcbVersion where
  raw : Nat

/-- Wire form of a `TcbVersion`: its 8 bytes. -/
def TcbVersion.serialize (t : TcbVersion) : List Nat :=
  toLEBytes 8 t.raw

/-- Modelled from the spec: `Signature` (declared in
`crate::certs::snp::ecdsa`, not part of the provided sources) is the fixed
size ECDSA-P384 signature block trailing the report: `r` and `s` component
byte arrays plus reserved padding, 512 bytes in total, so that the full report
is 0x2A0 + 512 = 1184 bytes. -/
structure Signature where
  r : Bytes 72
  s : Bytes 72
  reserved : Bytes 368

/-- Wire form of a `Signature`: its 512 bytes. -/
def Signature.serialize (sig : Signature) : List Nat :=
  sig.r.val ++ sig.s.val ++ sig.reserved.val

/-- Modelled from the spec: the decode/field-access error enum
(`crate::error::AttestationReportError`, not part of the provided sources):
an unsupported version discriminant carrying the read value, a field not
present in the active version carrying the field name, and a bincode
(truncation) failure. -/
inductive AttestationReportError where
  | UnsupportedReportVersion (version : Nat)
  | UnsupportedField (field : String)
  | BincodeError
deriving DecidableEq

/-- `GuestPolicy(u64)`: the guest-policy bitfield, stored as its raw 64-bit
integer. -/
structure GuestPolicy where
  raw : Nat
deriving DecidableEq

/-- Serde (wire) serialization of `GuestPolicy`: the derived `Serialize` on
the tuple struct emits the stored `u64` unchanged as 8 little-endian bytes. -/
def GuestPolicy.serialize (p : GuestPolicy) : List Nat :=
  toLEBytes 8 p.raw

/-- `impl From<GuestPolicy> for u64`: bit 17 of the guest policy is reserved
and must always be set to 1, so the conversion ORs in `1 << 17`. -/
def GuestPolicy.toU64 (value : GuestPolicy) : Nat :=
  value.raw ||| (1 <<< 17)

/-- `PlatformInfoV1(u64)`: the version-1 platform-info bitfield. -/
structure PlatformInfoV1 where
  raw : Nat
deriving DecidableEq

/-- Wire form of `PlatformInfoV1`: the stored `u64` as 8 bytes. -/
def PlatformInfoV1.serialize (p : PlatformInfoV1) : List Nat :=
  toLEBytes 8 p.raw

/-- `PlatformInfoV2(u64)`: the version-2 platform-info bitfield. -/
structure PlatformInfoV2 where
  raw : Nat
deriving DecidableEq

/-- Wire form of `PlatformInfoV2`: the stored `u64` as 8 bytes. -/
def PlatformInfoV2.serialize (p : PlatformInfoV2) : List Nat :=
  toLEBytes 8 p.raw

/-- Bitfield getter `alias_check_complete: 5, 5` of `PlatformInfoV2`:
extracts bit 5 by shift and mask. -/
def PlatformInfoV2.alias_check_complete (p : PlatformInfoV2) : Nat :=
  (p.raw >>> 5) &&& 1

/-- `KeyInfo(u32)`: the key-usage bitfield. -/
structure KeyInfo where
  raw : Nat
deriving DecidableEq

/-- Wire form of `KeyInfo`: the stored `u32` as 4 bytes. -/
def KeyInfo.serialize (k : KeyInfo) : List Nat :=
  toLEBytes 4 k.raw

/-- The tagged union over the two platform-info revisions returned by the
`AttestationReport::plat_info` facade accessor. -/
inductive PlatformInfo where
  | V1 (info : PlatformInfoV1)
  | V2 (info : PlatformInfoV2)

/-- `PlatformInfo::alias_check_complete`: succeeds with bit 5 on a V2 value
and returns an `UnsupportedField` error on a V1 value. -/
def PlatformInfo.alias_check_complete :
    PlatformInfo → Except AttestationReportError Nat
  | .V1 _ => .error (.UnsupportedField "Alias Check Complete")
  | .V2 field => .ok field.alias_check_complete

/-- `AttestationReportV2`: the fixed-layout version-2 attestation report,
fields in wire order. -/
structure AttestationReportV2 where
  version : Nat
  guest_svn : Nat
  policy : GuestPolicy
  family_id : Bytes 16
  image_id : Bytes 16
  vmpl : Nat
  sig_algo : Nat
  current_tcb : TcbVersion
  plat_info : PlatformInfoV1
  key_info : KeyInfo
  reserved_0 : Nat
  report_data : Bytes 64
  measurement : Bytes 48
  host_data : Bytes 32
  id_key_digest : Bytes 48
  author_key_digest : Bytes 48
  report_id : Bytes 32
  report_id_ma : Bytes 32
  reported_tcb : TcbVersion
  reserved_1 : Bytes 24
  chip_id : Bytes 64
  committed_tcb : TcbVersion
  current_build : Nat
  current_minor : Nat
  current_major : Nat
  reserved_2 : Nat
  committed_build : Nat
  committed_minor : Nat
  committed_major : Nat
  reserved_3 : Nat
  launch_tcb : TcbVersion
  reserved_4 : Bytes 168
  signature : Signature

/-- `AttestationReportV3`: the fixed-layout version-3 attestation report.  It
differs from V2 only in the platform-info revision and in three CPUID bytes
carved out of the reserved span after `reported_tcb`. -/
structure AttestationReportV3 where
  version : Nat
  guest_svn : Nat
  policy : GuestPolicy
  family_id : Bytes 16
  image_id : Bytes 16
  vmpl : Nat
  sig_algo : Nat
  current_tcb : TcbVersion
  plat_info : PlatformInfoV2
  key_info : KeyInfo
  reserved_0 : Nat
  report_data : Bytes 64
  measurement : Bytes 48
  host_data : Bytes 32
  id_key_digest : Bytes 48
  author_key_digest : Bytes 48
  report_id : Bytes 32
  report_id_ma : Bytes 32
  reported_tcb : TcbVersion
  cpuid_fam_id : Nat
  cpuid_mod_id : Nat
  cpuid_step : Nat
  reserved_1 : Bytes 21
  chip_id : Bytes 64
  committed_tcb : TcbVersion
  current_build : Nat
  current_minor : Nat
  current_major : Nat
  reserved_2 : Nat
  committed_build : Nat
  committed_minor : Nat
  committed_major : Nat
  reserved_3 : Nat
  launch_tcb : TcbVersion
  reserved_4 : Bytes 168
  signature : Signature

/-- bincode serialization of the fields of `AttestationReportV2` that precede
the trailing `signature` field, in declaration order (672 = 0x2A0 bytes). -/
def AttestationReportV2.serializeBody (r : AttestationReportV2) : List Nat :=
  toLEBytes 4 r.version ++ toLEBytes 4 r.guest_svn ++ r.policy.serialize ++
  r.family_id.val ++ r.image_id.val ++ toLEBytes 4 r.vmpl ++
  toLEBytes 4 r.sig_algo ++ r.current_tcb.serialize ++ r.plat_info.serialize ++
  r.key_info.serialize ++ toLEBytes 4 r.reserved_0 ++ r.report_data.val ++
  r.measurement.val ++ r.host_data.val ++ r.id_key_digest.val ++
  r.author_key_digest.val ++ r.report_id.val ++ r.report_id_ma.val ++
  r.reported_tcb.serialize ++ r.reserved_1.val ++ r.chip_id.val ++
  r.committed_tcb.serialize ++ toLEBytes 1 r.current_build ++
  toLEBytes 1 r.current_minor ++ toLEBytes 1 r.current_major ++
  toLEBytes 1 r.reserved_2 ++ toLEBytes 1 r.committed_build ++
  toLEBytes 1 r.committed_minor ++ toLEBytes 1 r.committed_major ++
  toLEBytes 1 r.reserved_3 ++ r.launch_tcb.serialize ++ r.reserved_4.val

/-- bincode serialization of a full `AttestationReportV2` (1184 bytes): the
body followed by the trailing signature block. -/
def AttestationReportV2.serialize (r : AttestationReportV2) : List Nat :=
  r.serializeBody ++ r.signature.serialize

/-- bincode serialization of the fields of `AttestationReportV3` that precede
the trailing `signature` field, in declaration order (672 = 0x2A0 bytes). -/
def AttestationReportV3.serializeBody (r : AttestationReportV3) : List Nat :=
  toLEBytes 4 r.version ++ toLEBytes 4 r.guest_svn ++ r.policy.serialize ++
  r.family_id.val ++ r.image_id.val ++ toLEBytes 4 r.vmpl ++
  toLEBytes 4 r.sig_algo ++ r.current_tcb.serialize ++ r.plat_info.serialize ++
  r.key_info.serialize ++ toLEBytes 4 r.reserved_0 ++ r.report_data.val ++
  r.measurement.val ++ r.host_data.val ++ r.id_key_digest.val ++
  r.author_key_digest.val ++ r.report_id.val ++ r.report_id_ma.val ++
  r.reported_tcb.serialize ++ toLEBytes 1 r.cpuid_fam_id ++
  toLEBytes 1 r.cpuid_mod_id ++ toLEBytes 1 r.cpuid_step ++ r.reserved_1.val ++
  r.chip_id.val ++ r.committed_tcb.serialize ++ toLEBytes 1 r.current_build ++
  toLEBytes 1 r.current_minor ++ toLEBytes 1 r.current_major ++
  toLEBytes 1 r.reserved_2 ++ toLEBytes 1 r.committed_build ++
  toLEBytes 1 r.committed_minor ++ toLEBytes 1 r.committed_major ++
  toLEBytes 1 r.reserved_3 ++ r.launch_tcb.serialize ++ r.reserved_4.val

/-- bincode serialization of a full `AttestationReportV3` (1184 bytes): the
body followed by the trailing signature block. -/
def AttestationReportV3.serialize (r : AttestationReportV3) : List Nat :=
  r.serializeBody ++ r.signature.serialize

/-- `impl TryFrom<&[u8]> for AttestationReportV2`
(`bincode::deserialize(bytes)`): reads the fixed layout field by field — the
fixed widths make every field offset fixed, as written here — and fails with
a bincode error when the input cannot supply the structure's 1184 bytes;
trailing input beyond the fixed size is ignored. -/
def AttestationReportV2.tryFromBytes (bytes : List Nat) :
    Except AttestationReportError AttestationReportV2 :=
  if h : 1184 ≤ bytes.length then
    .ok
      { version := sliceUInt bytes 0 4
        guest_svn := sliceUInt bytes 4 4
        policy := ⟨sliceUInt bytes 8 8⟩
        family_id := sliceBytes bytes 16 16 (by omega)
        image_id := sliceBytes bytes 32 16 (by omega)
        vmpl := sliceUInt bytes 48 4
        sig_algo := sliceUInt bytes 52 4
        current_tcb := ⟨sliceUInt bytes 56 8⟩
        plat_info := ⟨sliceUInt bytes 64 8⟩
        key_info := ⟨sliceUInt bytes 72 4⟩
        reserved_0 := sliceUInt bytes 76 4
        report_data := sliceBytes bytes 80 64 (by omega)
        measurement := sliceBytes bytes 144 48 (by omega)
        host_data := sliceBytes bytes 192 32 (by omega)
        id_key_digest := sliceBytes bytes 224 48 (by omega)
        author_key_digest := sliceBytes bytes 272 48 (by omega)
        report_id := sliceBytes bytes 320 32 (by omega)
        report_id_ma := sliceBytes bytes 352 32 (by omega)
        reported_tcb := ⟨sliceUInt bytes 384 8⟩
        reserved_1 := sliceBytes bytes 392 24 (by omega)
        chip_id := sliceBytes bytes 416 64 (by omega)
        committed_tcb := ⟨sliceUInt bytes 480 8⟩
        current_build := sliceUInt bytes 488 1
        current_minor := sliceUInt bytes 489 1
        current_major := sliceUInt bytes 490 1
        reserved_2 := sliceUInt bytes 491 1
        committed_build := sliceUInt bytes 492 1
        committed_minor := sliceUInt bytes 493 1
        committed_major := sliceUInt bytes 494 1
        reserved_3 := sliceUInt bytes 495 1
        launch_tcb := ⟨sliceUInt bytes 496 8⟩
        reserved_4 := sliceBytes bytes 504 168 (by omega)
        signature :=
          { r := sliceBytes bytes 672 72 (by omega)
            s := sliceBytes bytes 744 72 (by omega)
            reserved := sliceBytes bytes 816 368 (by omega) } }
  else
    .error .BincodeError

/-- `impl TryFrom<&[u8]> for AttestationReportV3`
(`bincode::deserialize(bytes)`): as for V2, with the three CPUID bytes and
the 21 remaining reserved bytes after `reported_tcb`. -/
def AttestationReportV3.tryFromBytes (bytes : List Nat) :
    Except AttestationReportError AttestationReportV3 :=
  if h : 1184 ≤ bytes.length then
    .ok
      { version := sliceUInt bytes 0 4
        guest_svn := sliceUInt bytes 4 4
        policy := ⟨sliceUInt bytes 8 8⟩
        family_id := sliceBytes bytes 16 16 (by omega)
        image_id := sliceBytes bytes 32 16 (by omega)
        vmpl := sliceUInt bytes 48 4
        sig_algo := sliceUInt bytes 52 4
        current_tcb := ⟨sliceUInt bytes 56 8⟩
        plat_info := ⟨sliceUInt bytes 64 8⟩
        key_info := ⟨sliceUInt bytes 72 4⟩
        reserved_0 := sliceUInt bytes 76 4
        report_data := sliceBytes bytes 80 64 (by omega)
        measurement := sliceBytes bytes 144 48 (by omega)
        host_data := sliceBytes bytes 192 32 (by omega)
        id_key_digest := sliceBytes bytes 224 48 (by omega)
        author_key_digest := sliceBytes bytes 272 48 (by omega)
        report_id := sliceBytes bytes 320 32 (by omega)
        report_id_ma := sliceBytes bytes 352 32 (by omega)
        reported_tcb := ⟨sliceUInt bytes 384 8⟩
        cpuid_fam_id := sliceUInt bytes 392 1
        cpuid_mod_id := sliceUInt bytes 393 1
        cpuid_step := sliceUInt bytes 394 1
        reserved_1 := sliceBytes bytes 395 21 (by omega)
        chip_id := sliceBytes bytes 416 64 (by omega)
        committed_tcb := ⟨sliceUInt bytes 480 8⟩
        current_build := sliceUInt bytes 488 1
        current_minor := sliceUInt bytes 489 1
        current_major := sliceUInt bytes 490 1
        reserved_2 := sliceUInt bytes 491 1
        committed_build := sliceUInt bytes 492 1
        committed_minor := sliceUInt bytes 493 1
        committed_major := sliceUInt bytes 494 1
        reserved_3 := sliceUInt bytes 495 1
        launch_tcb := ⟨sliceUInt bytes 496 8⟩
        reserved_4 := sliceBytes bytes 504 168 (by omega)
        signature :=
          { r := sliceBytes bytes 672 72 (by omega)
            s := sliceBytes bytes 744 72 (by omega)
            reserved := sliceBytes bytes 816 368 (by omega) } }
  else
    .error .BincodeError

/-- `AttestationReport`: the tagged union over the two report versions. -/
inductive AttestationReport where
  | V2 (report : AttestationReportV2)
  | V3 (report : AttestationReportV3)

/-- The observable outcome of running `TryFrom<&[u8]> for AttestationReport`:
a decoded report, an error value, or a process panic (the Rust function
indexes the slice, which aborts on an out-of-bounds access). -/
inductive DecodeOutcome (α : Type) where
  | ok (value : α)
  | error (e : AttestationReportError)
  | panicked

/-- `impl TryFrom<&[u8]> for AttestationReport`: reads
`u32::from_le_bytes([raw_report[0], raw_report[1], raw_report[2],
raw_report[3]])` — an unchecked slice index, so an input shorter than 4 bytes
panics — then dispatches on the discriminant: 2 decodes the V2 layout, 3 the
V3 layout, anything else is `UnsupportedReportVersion(version)`. -/
def decodeReport (raw_report : List Nat) : DecodeOutcome AttestationReport :=
  if 4 ≤ raw_report.length then
    match fromLEBytes (raw_report.take 4) with
    | 2 =>
      match AttestationReportV2.tryFromBytes raw_report with
      | .ok report_v2 => .ok (.V2 report_v2)
      | .error e => .error e
    | 3 =>
      match AttestationReportV3.tryFromBytes raw_report with
      | .ok report_v3 => .ok (.V3 report_v3)
      | .error e => .error e
    | version => .error (.UnsupportedReportVersion version)
  else
    .panicked

/-- `Attestable::measurable_bytes` for `AttestationReportV2`: serialize the
report and keep the first 0x2A0 bytes. -/
def AttestationReportV2.measurable_bytes (r : AttestationReportV2) : List Nat :=
  r.serialize.take 0x2a0

/-- `Attestable::measurable_bytes` for `AttestationReportV3`: serialize the
report and keep the first 0x2A0 bytes. -/
def AttestationReportV3.measurable_bytes (r : AttestationReportV3) : List Nat :=
  r.serialize.take 0x2a0

/-- `Attestable::measurable_bytes` for `AttestationReport`: dispatch to the
wrapped version. -/
def AttestationReport.measurable_bytes : AttestationReport → List Nat
  | .V2 v2 => v2.measurable_bytes
  | .V3 v3 => v3.measurable_bytes

/-- `Attestable::signature` for `AttestationReport`: dispatch to the wrapped
version's trailing signature field. -/
def AttestationReport.signature : AttestationReport → Signature
  | .V2 v2 => v2.signature
  | .V3 v3 => v3.signature

/-- `AttestationReport::cpuid`: the facade accessor for the V3-only CPUID
triple; an `UnsupportedField` error on a V2 report. -/
def AttestationReport.cpuid :
    AttestationReport → Except AttestationReportError (Nat × Nat × Nat)
  | .V2 _ => .error (.UnsupportedField "cpuid information")
  | .V3 report => .ok (report.cpuid_fam_id, report.cpuid_mod_id, report.cpuid_step)

/-- `AttestationReport::plat_info`: the facade accessor returning the
tagged-union platform-info wrapper. -/
def AttestationReport.plat_info : AttestationReport → PlatformInfo
  | .V2 report => .V1 report.plat_info
  | .V3 report => .V2 report.plat_info

/-- `const MAX_VMPL: u32 = 3` from `src/firmware/linux/guest/types.rs`. -/
def MAX_VMPL : Nat := 3

/-- Modelled from the spec: the slice of `crate::error::UserApiError` (not
part of the provided sources) relevant here — the dedicated VMPL-range
construction error. -/
inductive UserApiError where
  | VmplError
deriving DecidableEq

/-- `ReportReq`: report-request transport object — 64 bytes of caller
data, the requested VMPL, and 28 reserved zero bytes. -/
structure ReportReq where
  report_data : Bytes 64
  vmpl : Nat
  reserved : Bytes 28

/-- `impl Default for ReportReq`: zero report data, VMPL 1, zero padding. -/
def ReportReq.default : ReportReq :=
  { report_data := ⟨List.replicate 64 0, by simp⟩
    vmpl := 1
    reserved := ⟨List.replicate 28 0, by simp⟩ }

/-- `ReportReq::new`: start from the default, overwrite `report_data` when
supplied, and when a VMPL is supplied reject values above `MAX_VMPL` with
`UserApiError::VmplError`, otherwise store the value unchanged. -/
def ReportReq.new (report_data : Option (Bytes 64)) (vmpl : Option Nat) :
    Except UserApiError ReportReq :=
  let request := ReportReq.default
  let request :=
    match report_data with
    | some rd => { request with report_data := rd }
    | none => request
  match vmpl with
  | some v =>
    if v > MAX_VMPL then .error .VmplError
    else .ok { request with vmpl := v }
  | none => .ok request

/-- `const REPORT_SIZE: usize = 1184`. -/
def REPORT_SIZE : Nat := 1184

/-- The length of `ReportRsp.reserved_1`, exactly as the source computes it:
`4000 - (REPORT_SIZE + size_of::<u32>() * 2 + size_of::<[u8; 24]>())`. -/
def ReportRspPaddingLen : Nat := 4000 - (REPORT_SIZE + 4 * 2 + 24)

/-- `ReportRsp`: report-response transport object — status, report size, 24
reserved bytes, the 1184-byte report payload, and trailing padding sized so
the whole structure is one 4096-byte page minus the 96-byte header. -/
structure ReportRsp where
  status : Nat
  report_size : Nat
  reserved_0 : Bytes 24
  report : Bytes REPORT_SIZE
  reserved_1 : Bytes ReportRspPaddingLen

/-- The wire bytes of a `ReportRsp` (its `repr(C)` layout is fully packed:
every field is a `u32` or byte array, so the struct size is the sum of the
field sizes, which `const_assert!` pins to 4000). -/
def ReportRsp.serialize (rsp : ReportRsp) : List Nat :=
  toLEBytes 4 rsp.status ++ toLEBytes 4 rsp.report_size ++
  rsp.reserved_0.val ++ rsp.report.val ++ rsp.reserved_1.val

/-- Modelled from the spec: the openssl-backed collaborators of
`Verifiable::verify` (certificate chain validation, `EcdsaSig::try_from`,
SHA-384, key extraction, ECDSA-P384 verification), which live outside the
provided sources and are treated as injected capabilities. -/
structure OpensslBackend (Chain Cert EcKey Sig Digest Err : Type) where
  chain_verify : Chain → Except Err Cert
  ecdsa_sig_try_from : Signature → Except Err Sig
  sha384 : List Nat → Digest
  public_key_ec : Cert → Except Err EcKey
  ecdsa_verify : Digest → Sig → EcKey → Except Err Bool
  not_signing_error : Err

/-- `impl Verifiable for (&Chain, &T)` under the `openssl` feature: validate
the chain to obtain the VCEK, decode the report's signature, hash the
measurable bytes with SHA-384, extract the EC public key, run ECDSA
verification, and succeed only when the primitive returns `true`, turning a
`false` result into the "VCEK does not sign the attestation report" error. -/
def verifyOpenssl {Chain Cert EcKey Sig Digest Err : Type}
    (B : OpensslBackend Chain Cert EcKey Sig Digest Err)
    (chain : Chain) (report : AttestationReport) : Except Err Unit := do
  let vcek ← B.chain_verify chain
  let sig ← B.ecdsa_sig_try_from report.signature
  let measurable_bytes := report.measurable_bytes
  let base_digest := B.sha384 measurable_bytes
  let ec ← B.public_key_ec vcek
  let signed ← B.ecdsa_verify base_digest sig ec
  match signed with
  | true => .ok ()
  | false => .error B.not_signing_error

/-- Modelled from the spec: the pure-Rust (`crypto_nossl`) collaborators of
`Verifiable::verify` — chain validation, `p384::ecdsa::Signature::try_from`,
SHA-384 digest construction, SEC1 public-key parsing, and
`verify_digest`. -/
structure NosslBackend (Chain Cert VKey Sig Digest Err : Type) where
  chain_verify : Chain → Except Err Cert
  sig_try_from : Signature → Except Err Sig
  sha384_digest : List Nat → Digest
  public_key_sec1 : Cert → List Nat
  verifying_key_from_sec1 : List Nat → Except Err VKey
  verify_digest : VKey → Digest → Sig → Except Err Unit

/-- `impl Verifiable for (&Chain, &T)` under the `crypto_nossl` feature:
validate the chain, decode the signature, digest the measurable bytes,
parse the verifying key from its SEC1 bytes (a malformed key surfaces as an
error), and return the result of `verify_digest` directly. -/
def verifyNossl {Chain Cert VKey Sig Digest Err : Type}
    (B : NosslBackend Chain Cert VKey Sig Digest Err)
    (chain : Chain) (report : AttestationReport) : Except Err Unit := do
  let vcek ← B.chain_verify chain
  let sig ← B.sig_try_from report.signature
  let measurable_bytes := report.measurable_bytes
  let base_digest := B.sha384_digest measurable_bytes
  let verifying_key ← B.verifying_key_from_sec1 (B.public_key_sec1 vcek)
  B.verify_digest verifying_key base_digest sig

/-- A fixed-size byte array of zeros (test fixture). -/
def zeroBytes (n : Nat) : Bytes n := ⟨List.replicate n 0, by simp⟩

/-- An all-zero V2 attestation report (test fixture for the verification
engine). -/
def zeroReportV2 : AttestationReportV2 :=
  { version := 2
    guest_svn := 0
    policy := ⟨0⟩
    family_id := zeroBytes 16
    image_id := zeroBytes 16
    vmpl := 0
    sig_algo := 0
    current_tcb := ⟨0⟩
    plat_info := ⟨0⟩
    key_info := ⟨0⟩
    reserved_0 := 0
    report_data := zeroBytes 64
    measurement := zeroBytes 48
    host_data := zeroBytes 32
    id_key_digest := zeroBytes 48
    author_key_digest := zeroBytes 48
    report_id := zeroBytes 32
    report_id_ma := zeroBytes 32
    reported_tcb := ⟨0⟩
    reserved_1 := zeroBytes 24
    chip_id := zeroBytes 64
    committed_tcb := ⟨0⟩
    current_build := 0
    current_minor := 0
    current_major := 0
    reserved_2 := 0
    committed_build := 0
    committed_minor := 0
    committed_major := 0
    reserved_3 := 0
    launch_tcb := ⟨0⟩
    reserved_4 := zeroBytes 168
    signature := { r := zeroBytes 72, s := zeroBytes 72
                   reserved := zeroBytes 368 } }

/-- The all-zero V2 report wrapped in the version facade (test fixture). -/
def testReport : AttestationReport := .V2 zeroReportV2

/-- An openssl-style backend whose ECDSA primitive always answers `false`
(test fixture). -/
def testBackendOpenssl : OpensslBackend Unit Unit Unit Unit (List Nat) String :=
  { chain_verify := fun _ => .ok ()
    ecdsa_sig_try_from := fun _ => .ok ()
    sha384 := fun bytes => bytes
    public_key_ec := fun _ => .ok ()
    ecdsa_verify := fun _ _ _ => .ok false
    not_signing_error := "VCEK does not sign the attestation report" }

/-- A nossl-style backend whose digest verification always accepts (test
fixture). -/
def testBackendNossl : NosslBackend Unit Unit Unit Unit (List Nat) String :=
  { chain_verify := fun _ => .ok ()
    sig_try_from := fun _ => .ok ()
    sha384_digest := fun bytes => bytes
    public_key_sec1 := fun _ => []
    verifying_key_from_sec1 := fun _ => .ok ()
    verify_digest := fun _ _ _ => .ok () }

/-! ## Supporting lemmas -/

/-- The length of a fixed-size byte array's underlying list is its size. -/
@[simp] theorem Bytes.length_val {n : Nat} (b : Bytes n) : b.val.length = n :=
  b.property

/-- `toLEBytes` always produces exactly `w` bytes. -/
@[simp] theorem toLEBytes_length (w n : Nat) : (toLEBytes w n).length = w := by
  induction w generalizing n with
  | zero => rfl
  | succ w ih => simp [toLEBytes, ih]

/-- Re-encoding the integer read from `w` bytes reproduces those bytes. -/
theorem toLEBytes_fromLEBytes (l : List Nat) (w : Nat) (hlen : l.length = w)
    (hb : ∀ b ∈ l, b < 256) : toLEBytes w (fromLEBytes l) = l := by
  induction l generalizing w with
  | nil => subst hlen; rfl
  | cons b bs ih =>
    subst hlen
    have hb0 : b < 256 := hb b (by simp)
    have h1 : (b + 256 * fromLEBytes bs) % 256 = b := by
      rw [Nat.add_mul_mod_self_left, Nat.mod_eq_of_lt hb0]
    have h2 : (b + 256 * fromLEBytes bs) / 256 = fromLEBytes bs := by
      rw [Nat.add_mul_div_left _ _ (by omega : 0 < 256), Nat.div_eq_of_lt hb0]
      omega
    simp only [fromLEBytes, List.length_cons, toLEBytes, h1, h2,
      List.cons.injEq, true_and]
    exact ih _ rfl (fun x hx => hb x (List.mem_cons_of_mem _ hx))

/-- Reading back the `w` little-endian bytes of `n` yields `n % 256 ^ w`. -/
theorem fromLEBytes_toLEBytes (w n : Nat) :
    fromLEBytes (toLEBytes w n) = n % 256 ^ w := by
  induction w generalizing n with
  | zero => simp [toLEBytes, fromLEBytes, Nat.mod_one]
  | succ w ih =>
    simp only [toLEBytes, fromLEBytes, ih]
    rw [pow_succ', Nat.mod_mul]

/-- Re-encoding the integer field read at offset `off` of a byte slice
reproduces the slice's bytes there. -/
theorem toLEBytes_slice (s : List Nat) (hb : ∀ b ∈ s, b < 256) (off w : Nat)
    (h : off + w ≤ s.length) :
    toLEBytes w (fromLEBytes ((s.drop off).take w)) = (s.drop off).take w := by
  apply toLEBytes_fromLEBytes
  · simp only [List.length_take, List.length_drop]
    omega
  · intro b hbmem
    exact hb b (List.mem_of_mem_drop (List.mem_of_mem_take hbmem))

/-- Two adjacent fixed-width segments of a byte slice recombine into one. -/
theorem seg_step (s : List Nat) (off w k : Nat) :
    (s.drop off).take w ++ (s.drop (off + w)).take k
      = (s.drop off).take (w + k) := by
  rw [List.take_add, List.drop_drop]

/-- `seg_step` with every arithmetic fact supplied explicitly, so it can be
applied by purely syntactic rewriting at literal offsets. -/
theorem seg_glue (s : List Nat) (off w off2 k m : Nat) (h1 : off2 = off + w)
    (h2 : m = w + k) :
    (s.drop off).take w ++ (s.drop off2).take k = (s.drop off).take m := by
  subst h1 h2; exact seg_step s off w k

/-- Extracting the bytes of the third of four concatenated chunks, given the
lengths of the chunks before it. -/
theorem region_extract2 (p₁ p₂ q t : List Nat) (a₁ a₂ b : Nat)
    (h1 : p₁.length = a₁) (h2 : p₂.length = a₂) (hq : q.length = b) :
    ((p₁ ++ (p₂ ++ (q ++ t))).drop (a₁ + a₂)).take b = q := by
  rw [← List.append_assoc]
  rw [List.drop_left' (show (p₁ ++ p₂).length = a₁ + a₂ by simp [h1, h2])]
  exact List.take_left' hq

/-- The body of a serialized V2 report is exactly 0x2A0 = 672 bytes. -/
theorem serializeBodyV2_length (r : AttestationReportV2) :
    r.serializeBody.length = 672 := by
  simp [AttestationReportV2.serializeBody, GuestPolicy.serialize,
    TcbVersion.serialize, PlatformInfoV1.serialize, KeyInfo.serialize]

/-- The body of a serialized V3 report is exactly 0x2A0 = 672 bytes. -/
theorem serializeBodyV3_length (r : AttestationReportV3) :
    r.serializeBody.length = 672 := by
  simp [AttestationReportV3.serializeBody, GuestPolicy.serialize,
    TcbVersion.serialize, PlatformInfoV2.serialize, KeyInfo.serialize]

/-- A serialized signature block is exactly 512 bytes. -/
theorem Signature.serialize_length (sig : Signature) :
    sig.serialize.length = 512 := by
  simp [Signature.serialize]

/-- A fully serialized V2 report is exactly 1184 bytes. -/
theorem serializeV2_length (r : AttestationReportV2) :
    r.serialize.length = 1184 := by
  simp [AttestationReportV2.serialize, serializeBodyV2_length,
    Signature.serialize_length]

/-- A fully serialized V3 report is exactly 1184 bytes. -/
theorem serializeV3_length (r : AttestationReportV3) :
    r.serialize.length = 1184 := by
  simp [AttestationReportV3.serialize, serializeBodyV3_length,
    Signature.serialize_length]

/-- Decoding a long-enough byte buffer as a V2 report succeeds, and
re-serializing the decoded report reproduces the first 1184 input bytes. -/
theorem tryFromBytesV2_roundtrip (s : List Nat)
    (hb : ∀ b ∈ s, b < 256) (hlen : 1184 ≤ s.length) :
    ∃ r, AttestationReportV2.tryFromBytes s = .ok r ∧
      r.serialize = s.take 1184 := by
  unfold AttestationReportV2.tryFromBytes
  rw [dif_pos hlen]
  refine ⟨_, rfl, ?_⟩
  simp only [AttestationReportV2.serialize, AttestationReportV2.serializeBody,
    Signature.serialize, GuestPolicy.serialize, TcbVersion.serialize,
    PlatformInfoV1.serialize, KeyInfo.serialize, sliceUInt, sliceBytes]
  rw [toLEBytes_slice s hb 0 4 (by omega),
    toLEBytes_slice s hb 4 4 (by omega),
    toLEBytes_slice s hb 8 8 (by omega),
    toLEBytes_slice s hb 48 4 (by omega),
    toLEBytes_slice s hb 52 4 (by omega),
    toLEBytes_slice s hb 56 8 (by omega),
    toLEBytes_slice s hb 64 8 (by omega),
    toLEBytes_slice s hb 72 4 (by omega),
    toLEBytes_slice s hb 76 4 (by omega),
    toLEBytes_slice s hb 384 8 (by omega),
    toLEBytes_slice s hb 480 8 (by omega),
    toLEBytes_slice s hb 488 1 (by omega),
    toLEBytes_slice s hb 489 1 (by omega),
    toLEBytes_slice s hb 490 1 (by omega),
    toLEBytes_slice s hb 491 1 (by omega),
    toLEBytes_slice s hb 492 1 (by omega),
    toLEBytes_slice s hb 493 1 (by omega),
    toLEBytes_slice s hb 494 1 (by omega),
    toLEBytes_slice s hb 495 1 (by omega),
    toLEBytes_slice s hb 496 8 (by omega)]
  rw [seg_glue s 0 4 4 4 8 rfl rfl,
    seg_glue s 0 8 8 8 16 rfl rfl,
    seg_glue s 0 16 16 16 32 rfl rfl,
    seg_glue s 0 32 32 16 48 rfl rfl,
    seg_glue s 0 48 48 4 52 rfl rfl,
    seg_glue s 0 52 52 4 56 rfl rfl,
    seg_glue s 0 56 56 8 64 rfl rfl,
    seg_glue s 0 64 64 8 72 rfl rfl,
    seg_glue s 0 72 72 4 76 rfl rfl,
    seg_glue s 0 76 76 4 80 rfl rfl,
    seg_glue s 0 80 80 64 144 rfl rfl,
    seg_glue s 0 144 144 48 192 rfl rfl,
    seg_glue s 0 192 192 32 224 rfl rfl,
    seg_glue s 0 224 224 48 272 rfl rfl,
    seg_glue s 0 272 272 48 320 rfl rfl,
    seg_glue s 0 320 320 32 352 rfl rfl,
    seg_glue s 0 352 352 32 384 rfl rfl,
    seg_glue s 0 384 384 8 392 rfl rfl,
    seg_glue s 0 392 392 24 416 rfl rfl,
    seg_glue s 0 416 416 64 480 rfl rfl,
    seg_glue s 0 480 480 8 488 rfl rfl,
    seg_glue s 0 488 488 1 489 rfl rfl,
    seg_glue s 0 489 489 1 490 rfl rfl,
    seg_glue s 0 490 490 1 491 rfl rfl,
    seg_glue s 0 491 491 1 492 rfl rfl,
    seg_glue s 0 492 492 1 493 rfl rfl,
    seg_glue s 0 493 493 1 494 rfl rfl,
    seg_glue s 0 494 494 1 495 rfl rfl,
    seg_glue s 0 495 495 1 496 rfl rfl,
    seg_glue s 0 496 496 8 504 rfl rfl,
    seg_glue s 0 504 504 168 672 rfl rfl,
    seg_glue s 672 72 744 72 144 rfl rfl,
    seg_glue s 672 144 816 368 512 rfl rfl,
    seg_glue s 0 672 672 512 1184 rfl rfl]
  simp

/-- Decoding a long-enough byte buffer as a V3 report succeeds, and
re-serializing the decoded report reproduces the first 1184 input bytes. -/
theorem tryFromBytesV3_roundtrip (s : List Nat)
    (hb : ∀ b ∈ s, b < 256) (hlen : 1184 ≤ s.length) :
    ∃ r, AttestationReportV3.tryFromBytes s = .ok r ∧
      r.serialize = s.take 1184 := by
  unfold AttestationReportV3.tryFromBytes
  rw [dif_pos hlen]
  refine ⟨_, rfl, ?_⟩
  simp only [AttestationReportV3.serialize, AttestationReportV3.serializeBody,
    Signature.serialize, GuestPolicy.serialize, TcbVersion.serialize,
    PlatformInfoV2.serialize, KeyInfo.serialize, sliceUInt, sliceBytes]
  rw [toLEBytes_slice s hb 0 4 (by omega),
    toLEBytes_slice s hb 4 4 (by omega),
    toLEBytes_slice s hb 8 8 (by omega),
    toLEBytes_slice s hb 48 4 (by omega),
    toLEBytes_slice s hb 52 4 (by omega),
    toLEBytes_slice s hb 56 8 (by omega),
    toLEBytes_slice s hb 64 8 (by omega),
    toLEBytes_slice s hb 72 4 (by omega),
    toLEBytes_slice s hb 76 4 (by omega),
    toLEBytes_slice s hb 384 8 (by omega),
    toLEBytes_slice s hb 392 1 (by omega),
    toLEBytes_slice s hb 393 1 (by omega),
    toLEBytes_slice s hb 394 1 (by omega),
    toLEBytes_slice s hb 480 8 (by omega),
    toLEBytes_slice s hb 488 1 (by omega),
    toLEBytes_slice s hb 489 1 (by omega),
    toLEBytes_slice s hb 490 1 (by omega),
    toLEBytes_slice s hb 491 1 (by omega),
    toLEBytes_slice s hb 492 1 (by omega),
    toLEBytes_slice s hb 493 1 (by omega),
    toLEBytes_slice s hb 494 1 (by omega),
    toLEBytes_slice s hb 495 1 (by omega),
    toLEBytes_slice s hb 496 8 (by omega)]
  rw [seg_glue s 0 4 4 4 8 rfl rfl,
    seg_glue s 0 8 8 8 16 rfl rfl,
    seg_glue s 0 16 16 16 32 rfl rfl,
    seg_glue s 0 32 32 16 48 rfl rfl,
    seg_glue s 0 48 48 4 52 rfl rfl,
    seg_glue s 0 52 52 4 56 rfl rfl,
    seg_glue s 0 56 56 8 64 rfl rfl,
    seg_glue s 0 64 64 8 72 rfl rfl,
    seg_glue s 0 72 72 4 76 rfl rfl,
    seg_glue s 0 76 76 4 80 rfl rfl,
    seg_glue s 0 80 80 64 144 rfl rfl,
    seg_glue s 0 144 144 48 192 rfl rfl,
    seg_glue s 0 192 192 32 224 rfl rfl,
    seg_glue s 0 224 224 48 272 rfl rfl,
    seg_glue s 0 272 272 48 320 rfl rfl,
    seg_glue s 0 320 320 32 352 rfl rfl,
    seg_glue s 0 352 352 32 384 rfl rfl,
    seg_glue s 0 384 384 8 392 rfl rfl,
    seg_glue s 0 392 392 1 393 rfl rfl,
    seg_glue s 0 393 393 1 394 rfl rfl,
    seg_glue s 0 394 394 1 395 rfl rfl,
    seg_glue s 0 395 395 21 416 rfl rfl,
    seg_glue s 0 416 416 64 480 rfl rfl,
    seg_glue s 0 480 480 8 488 rfl rfl,
    seg_glue s 0 488 488 1 489 rfl rfl,
    seg_glue s 0 489 489 1 490 rfl rfl,
    seg_glue s 0 490 490 1 491 rfl rfl,
    seg_glue s 0 491 491 1 492 rfl rfl,
    seg_glue s 0 492 492 1 493 rfl rfl,
    seg_glue s 0 493 493 1 494 rfl rfl,
    seg_glue s 0 494 494 1 495 rfl rfl,
    seg_glue s 0 495 495 1 496 rfl rfl,
    seg_glue s 0 496 496 8 504 rfl rfl,
    seg_glue s 0 504 504 168 672 rfl rfl,
    seg_glue s 672 72 744 72 144 rfl rfl,
    seg_glue s 672 144 816 368 512 rfl rfl,
    seg_glue s 0 672 672 512 1184 rfl rfl]
  simp

/-- Decoding a V2 layout succeeds on every buffer of at least 1184 bytes. -/
theorem tryFromBytesV2_ok (s : List Nat)
    (hlen : 1184 ≤ s.length) :
    ∃ r, AttestationReportV2.tryFromBytes s = .ok r := by
  unfold AttestationReportV2.tryFromBytes
  rw [dif_pos hlen]
  exact ⟨_, rfl⟩

/-- Decoding a V2 layout from fewer than 1184 bytes is a bincode error. -/
theorem tryFromBytesV2_err (s : List Nat)
    (hlen : s.length < 1184) :
    AttestationReportV2.tryFromBytes s = .error .BincodeError := by
  unfold AttestationReportV2.tryFromBytes
  rw [dif_neg (by omega)]

/-- Decoding a V3 layout succeeds on every buffer of at least 1184 bytes. -/
theorem tryFromBytesV3_ok (s : List Nat)
    (hlen : 1184 ≤ s.length) :
    ∃ r, AttestationReportV3.tryFromBytes s = .ok r := by
  unfold AttestationReportV3.tryFromBytes
  rw [dif_pos hlen]
  exact ⟨_, rfl⟩

/-- Decoding a V3 layout from fewer than 1184 bytes is a bincode error. -/
theorem tryFromBytesV3_err (s : List Nat)
    (hlen : s.length < 1184) :
    AttestationReportV3.tryFromBytes s = .error .BincodeError := by
  unfold AttestationReportV3.tryFromBytes
  rw [dif_neg (by omega)]

/-! ## Claim theorems -/

/-- C4: the panic evaluated — `TryFrom<&[u8]> for AttestationReport` indexes
`raw_report[0..4]` without a length check, so decoding a slice shorter than 4
bytes aborts instead of returning the truncation error the claim requires. -/
theorem decode_short_input_panics :
    decodeReport [2, 0, 0] = .panicked ∧ decodeReport [] = .panicked :=
  ⟨rfl, rfl⟩

/-- C3 counterexample: the 4-byte buffer `[2, 0, 0, 0]` has discriminant 2 and
at least 4 bytes, yet decoding yields a bincode truncation error, not a V2
variant. -/
theorem decode_discriminant2_not_always_V2 :
    decodeReport [2, 0, 0, 0] = .error .BincodeError := rfl

/-- C3 (amended): for every byte slice of at least 4 bytes, decoding reads the
first 4 bytes as a little-endian u32 discriminant; discriminant 2 takes the V2
path — a V2 variant when the buffer reaches the fixed structure size of 1184
bytes and a truncation error otherwise, never a V3 variant; discriminant 3
symmetrically the V3 path; every other discriminant (e.g. 0, 1, 4, 0xFFFFFFFF)
yields an `UnsupportedVersion` error carrying the read value. -/
theorem decode_dispatch (s : List Nat) (h4 : 4 ≤ s.length) :
    (fromLEBytes (s.take 4) = 2 →
      (1184 ≤ s.length → ∃ r, decodeReport s = .ok (.V2 r)) ∧
      (s.length < 1184 → decodeReport s = .error .BincodeError)) ∧
    (fromLEBytes (s.take 4) = 3 →
      (1184 ≤ s.length → ∃ r, decodeReport s = .ok (.V3 r)) ∧
      (s.length < 1184 → decodeReport s = .error .BincodeError)) ∧
    (fromLEBytes (s.take 4) ≠ 2 → fromLEBytes (s.take 4) ≠ 3 →
      decodeReport s
        = .error (.UnsupportedReportVersion (fromLEBytes (s.take 4)))) := by
  refine ⟨?_, ?_, ?_⟩
  · intro hv
    constructor
    · intro hlen
      obtain ⟨r, hr⟩ := tryFromBytesV2_ok s hlen
      exact ⟨r, by unfold decodeReport; rw [if_pos h4, hv, hr]⟩
    · intro hlen
      have hr := tryFromBytesV2_err s hlen
      unfold decodeReport
      rw [if_pos h4, hv, hr]
  · intro hv
    constructor
    · intro hlen
      obtain ⟨r, hr⟩ := tryFromBytesV3_ok s hlen
      exact ⟨r, by unfold decodeReport; rw [if_pos h4, hv, hr]⟩
    · intro hlen
      have hr := tryFromBytesV3_err s hlen
      unfold decodeReport
      rw [if_pos h4, hv, hr]
  · intro h2 h3
    unfold decodeReport
    rw [if_pos h4]
    split
    · next h => exact absurd h h2
    · next h => exact absurd h h3
    · next v hv2 hv3 => rfl

/-- C3 witness: a full-sized buffer with discriminant 2 decodes to a V2
variant, and `[5, 0, 0, 0]` decodes to `UnsupportedVersion(5)`. -/
theorem decode_dispatch_witness :
    (∃ r, decodeReport (2 :: List.replicate 1183 0) = .ok (.V2 r)) ∧
    decodeReport [5, 0, 0, 0] = .error (.UnsupportedReportVersion 5) := by
  constructor
  · exact (decode_dispatch (2 :: List.replicate 1183 0)
        (by rw [List.length_cons, List.length_replicate]; omega)).1 rfl
      |>.1 (by rw [List.length_cons, List.length_replicate])
  · exact (decode_dispatch [5, 0, 0, 0] (by norm_num)).2.2
      (by decide) (by decide)

/-- C5: byte-exact round trip — for every byte buffer of at least the fixed
structure size 1184 whose 4-byte little-endian discriminant is 2 (resp. 3),
decoding succeeds with a V2 (resp. V3) variant and re-serializing the decoded
report reproduces exactly the input's first 1184 bytes. -/
theorem decode_serialize_roundtrip (s : List Nat) (hb : ∀ b ∈ s, b < 256)
    (hlen : 1184 ≤ s.length) :
    (fromLEBytes (s.take 4) = 2 →
      ∃ r, decodeReport s = .ok (.V2 r) ∧
        AttestationReportV2.serialize r = s.take 1184) ∧
    (fromLEBytes (s.take 4) = 3 →
      ∃ r, decodeReport s = .ok (.V3 r) ∧
        AttestationReportV3.serialize r = s.take 1184) := by
  have h4 : 4 ≤ s.length := by omega
  constructor
  · intro hv
    obtain ⟨r, hr, hser⟩ := tryFromBytesV2_roundtrip s hb hlen
    exact ⟨r, by unfold decodeReport; rw [if_pos h4, hv, hr], hser⟩
  · intro hv
    obtain ⟨r, hr, hser⟩ := tryFromBytesV3_roundtrip s hb hlen
    exact ⟨r, by unfold decodeReport; rw [if_pos h4, hv, hr], hser⟩

/-- C5 witness: the round trip evaluated on two concrete 1184-byte buffers,
one with discriminant 2 and one with discriminant 3. -/
theorem decode_serialize_roundtrip_witness :
    (∃ r, decodeReport (2 :: List.replicate 1183 0) = .ok (.V2 r) ∧
      AttestationReportV2.serialize r
        = (2 :: List.replicate 1183 0).take 1184) ∧
    (∃ r, decodeReport (3 :: List.replicate 1183 0) = .ok (.V3 r) ∧
      AttestationReportV3.serialize r
        = (3 :: List.replicate 1183 0).take 1184) := by
  have hb2 : ∀ b ∈ (2 :: List.replicate 1183 0), b < 256 := by
    intro b hb
    rcases List.mem_cons.mp hb with rfl | h
    · omega
    · rw [List.eq_of_mem_replicate h]; omega
  have hb3 : ∀ b ∈ (3 :: List.replicate 1183 0), b < 256 := by
    intro b hb
    rcases List.mem_cons.mp hb with rfl | h
    · omega
    · rw [List.eq_of_mem_replicate h]; omega
  constructor
  · exact (decode_serialize_roundtrip _ hb2
      (by rw [List.length_cons, List.length_replicate])).1 rfl
  · exact (decode_serialize_roundtrip _ hb3
      (by rw [List.length_cons, List.length_replicate])).2 rfl

/-- C2: for every report of either version the measurable bytes are the first
0x2A0 = 672 bytes of its serialized form — their length is always 0x2A0, they
are the prefix of the serialization, and they do not depend on the signature
field, whose bytes occupy offsets 0x2A0 and beyond. -/
theorem measurable_bytes_spec :
    (∀ ar : AttestationReport, ar.measurable_bytes.length = 0x2a0) ∧
    (∀ r : AttestationReportV2,
      r.measurable_bytes ++ r.serialize.drop 0x2a0 = r.serialize) ∧
    (∀ r : AttestationReportV3,
      r.measurable_bytes ++ r.serialize.drop 0x2a0 = r.serialize) ∧
    (∀ (r : AttestationReportV2) (sig : Signature),
      ({ r with signature := sig } : AttestationReportV2).measurable_bytes
        = r.measurable_bytes) ∧
    (∀ (r : AttestationReportV3) (sig : Signature),
      ({ r with signature := sig } : AttestationReportV3).measurable_bytes
        = r.measurable_bytes) := by
  refine ⟨?_, ?_, ?_, ?_, ?_⟩
  · intro ar
    cases ar with
    | V2 r =>
      show (r.serialize.take 0x2a0).length = 0x2a0
      rw [List.length_take, serializeV2_length]
      omega
    | V3 r =>
      show (r.serialize.take 0x2a0).length = 0x2a0
      rw [List.length_take, serializeV3_length]
      omega
  · intro r
    exact List.take_append_drop 0x2a0 r.serialize
  · intro r
    exact List.take_append_drop 0x2a0 r.serialize
  · intro r sig
    unfold AttestationReportV2.measurable_bytes AttestationReportV2.serialize
    rw [List.take_left' (serializeBodyV2_length _),
      List.take_left' (serializeBodyV2_length _)]
    rfl
  · intro r sig
    unfold AttestationReportV3.measurable_bytes AttestationReportV3.serialize
    rw [List.take_left' (serializeBodyV3_length _),
      List.take_left' (serializeBodyV3_length _)]
    rfl

/-- C6: converting any `GuestPolicy` to its integer (u64) form always yields
bit 17 set, and every other bit of the result equals the stored bit. -/
theorem guestPolicy_toU64_bit17 (p : GuestPolicy) :
    (GuestPolicy.toU64 p).testBit 17 = true ∧
    ∀ i, i ≠ 17 → (GuestPolicy.toU64 p).testBit i = p.raw.testBit i := by
  constructor
  · have hbit : Nat.testBit 131072 17 = true := by decide
    simp [GuestPolicy.toU64, Nat.testBit_or, hbit]
  · intro i hi
    simp [GuestPolicy.toU64, Nat.testBit_or, Nat.shiftLeft_eq, one_mul,
      Nat.testBit_two_pow_of_ne (Ne.symm hi)]

/-- C6 witness: evaluated at the all-zero policy and bit 0. -/
theorem guestPolicy_toU64_bit17_witness :
    (GuestPolicy.toU64 ⟨0⟩).testBit 17 = true ∧
    (GuestPolicy.toU64 ⟨0⟩).testBit 0 = (0 : Nat).testBit 0 :=
  ⟨(guestPolicy_toU64_bit17 ⟨0⟩).1, (guestPolicy_toU64_bit17 ⟨0⟩).2 0 (by decide)⟩

/-- C7: the CPUID facade accessor errors with `UnsupportedField` on a V2
report (never a default) and returns the family/model/stepping triple on V3;
`alias_check_complete` errors with `UnsupportedField` on V1 platform info and
returns bit 5 on V2 platform info. -/
theorem facade_unsupported_fields :
    (∀ r : AttestationReportV2,
      AttestationReport.cpuid (.V2 r)
        = .error (.UnsupportedField "cpuid information")) ∧
    (∀ r : AttestationReportV3,
      AttestationReport.cpuid (.V3 r)
        = .ok (r.cpuid_fam_id, r.cpuid_mod_id, r.cpuid_step)) ∧
    (∀ p : PlatformInfoV1,
      PlatformInfo.alias_check_complete (.V1 p)
        = .error (.UnsupportedField "Alias Check Complete")) ∧
    (∀ p : PlatformInfoV2,
      PlatformInfo.alias_check_complete (.V2 p)
        = .ok (if p.raw.testBit 5 then 1 else 0)) := by
  refine ⟨fun r => rfl, fun r => rfl, fun p => rfl, ?_⟩
  intro p
  show Except.ok ((p.raw >>> 5) &&& 1) = _
  congr 1
  rw [Nat.and_one_is_mod, Nat.shiftRight_eq_div_pow, Nat.testBit_to_div_mod]
  rcases Nat.mod_two_eq_zero_or_one (p.raw / 2 ^ 5) with h | h <;> rw [h] <;>
    simp

/-- C8: `ReportReq::new` succeeds for every VMPL in `0..=3`, storing the value
unchanged, and fails with the dedicated `VmplError` for every VMPL above 3. -/
theorem reportReq_new_vmpl (report_data : Option (Bytes 64)) (vmpl : Nat) :
    (vmpl ≤ 3 →
      ∃ req, ReportReq.new report_data (some vmpl) = .ok req ∧
        req.vmpl = vmpl) ∧
    (3 < vmpl → ReportReq.new report_data (some vmpl) = .error .VmplError) := by
  constructor
  · intro h
    simp only [ReportReq.new, MAX_VMPL]
    rw [if_neg (by omega)]
    exact ⟨_, rfl, rfl⟩
  · intro h
    simp only [ReportReq.new, MAX_VMPL]
    rw [if_pos (by omega)]

/-- C8 witness: VMPL 3 is accepted and stored, VMPL 4 is rejected. -/
theorem reportReq_new_vmpl_witness :
    (∃ req, ReportReq.new none (some 3) = .ok req ∧ req.vmpl = 3) ∧
    ReportReq.new none (some 4) = .error .VmplError :=
  ⟨(reportReq_new_vmpl none 3).1 (by omega),
   (reportReq_new_vmpl none 4).2 (by omega)⟩

/-- C9: the report-response transport structure occupies exactly 4000 bytes
for every value — the invariant `const_assert!(size_of::<ReportRsp>() ==
4000)` pins at build time. -/
theorem reportRsp_serialize_length (rsp : ReportRsp) :
    rsp.serialize.length = 4000 := by
  simp [ReportRsp.serialize, ReportRspPaddingLen, REPORT_SIZE]

/-- C10: the serde (wire) serialization of `GuestPolicy` emits the stored
64-bit value unchanged — so a stored bit 17 of 0 stays 0 on the wire, and the
policy field of a serialized report is exactly that wire form — while the
forcing of bit 17 to 1 happens only in the `u64` conversion. -/
theorem guestPolicy_wire (p : GuestPolicy) (h : p.raw < 2 ^ 64) :
    fromLEBytes p.serialize = p.raw ∧
    (p.raw.testBit 17 = false →
      (fromLEBytes p.serialize).testBit 17 = false) ∧
    (GuestPolicy.toU64 p).testBit 17 = true ∧
    ∀ r : AttestationReportV2,
      (r.serialize.drop 8).take 8 = r.policy.serialize := by
  have hser : fromLEBytes p.serialize = p.raw := by
    rw [GuestPolicy.serialize, fromLEBytes_toLEBytes,
      show (256 : Nat) ^ 8 = 2 ^ 64 by norm_num]
    exact Nat.mod_eq_of_lt h
  refine ⟨hser, ?_, ?_, ?_⟩
  · intro hb
    rw [hser]; exact hb
  · have hbit : Nat.testBit 131072 17 = true := by decide
    simp [GuestPolicy.toU64, Nat.testBit_or, hbit]
  · intro r
    simp only [AttestationReportV2.serialize, AttestationReportV2.serializeBody,
      List.append_assoc]
    exact region_extract2 _ _ _ _ 4 4 8 (by simp) (by simp)
      (by simp [GuestPolicy.serialize])

/-- C10 witness: evaluated at the policy with raw value 5 (bit 17 clear). -/
theorem guestPolicy_wire_witness :
    fromLEBytes (GuestPolicy.serialize ⟨5⟩) = 5 ∧
    (fromLEBytes (GuestPolicy.serialize ⟨5⟩)).testBit 17 = false :=
  ⟨(guestPolicy_wire ⟨5⟩ (by norm_num)).1,
   (guestPolicy_wire ⟨5⟩ (by norm_num)).2.1 (by decide)⟩

/-- Binding a successful `Except` computation applies the continuation. -/
@[simp] theorem except_bind_ok {ε α β : Type} (a : α) (f : α → Except ε β) :
    (Except.ok a >>= f : Except ε β) = f a := rfl

/-- Binding a failed `Except` computation propagates the error. -/
@[simp] theorem except_bind_error {ε α β : Type} (e : ε) (f : α → Except ε β) :
    ((Except.error e : Except ε α) >>= f) = Except.error e := rfl

/-- C1: `Verifiable::verify` returns success if and only if every collaborator
call succeeds and the ECDSA-P384 primitive reports a valid signature of the
SHA-384 digest of the report's measurable bytes against the chain-derived
key; a `false` verdict from the primitive, and every failure before the
cryptographic comparison (malformed signature encoding, malformed key, chain
failure), surface as errors, never as success — for both the openssl and the
crypto_nossl implementations. -/
theorem verify_ok_iff {Chain Cert EcKey VKey SigO SigN Digest Err : Type}
    (B : OpensslBackend Chain Cert EcKey SigO Digest Err)
    (C : NosslBackend Chain Cert VKey SigN Digest Err)
    (chain : Chain) (report : AttestationReport) :
    (verifyOpenssl B chain report = .ok () ↔
      ∃ vcek sig ec, B.chain_verify chain = .ok vcek ∧
        B.ecdsa_sig_try_from report.signature = .ok sig ∧
        B.public_key_ec vcek = .ok ec ∧
        B.ecdsa_verify (B.sha384 report.measurable_bytes) sig ec = .ok true) ∧
    (verifyNossl C chain report = .ok () ↔
      ∃ vcek sig vkey, C.chain_verify chain = .ok vcek ∧
        C.sig_try_from report.signature = .ok sig ∧
        C.verifying_key_from_sec1 (C.public_key_sec1 vcek) = .ok vkey ∧
        C.verify_digest vkey (C.sha384_digest report.measurable_bytes) sig
          = .ok ()) ∧
    (∀ vcek sig ec, B.chain_verify chain = .ok vcek →
      B.ecdsa_sig_try_from report.signature = .ok sig →
      B.public_key_ec vcek = .ok ec →
      B.ecdsa_verify (B.sha384 report.measurable_bytes) sig ec = .ok false →
      verifyOpenssl B chain report = .error B.not_signing_error) := by
  refine ⟨?_, ?_, ?_⟩
  · unfold verifyOpenssl
    rcases hc : B.chain_verify chain with e | vcek
    · simp [hc]
    · rcases hs : B.ecdsa_sig_try_from report.signature with e | sig
      · simp [hc, hs]
      · rcases he : B.public_key_ec vcek with e | ec
        · simp [hc, hs, he]
        · rcases hv : B.ecdsa_verify (B.sha384 report.measurable_bytes) sig ec
            with e | b
          · simp [hc, hs, he, hv]
          · cases b <;> simp [hc, hs, he, hv]
  · unfold verifyNossl
    rcases hc : C.chain_verify chain with e | vcek
    · simp [hc]
    · rcases hs : C.sig_try_from report.signature with e | sig
      · simp [hc, hs]
      · rcases hk : C.verifying_key_from_sec1 (C.public_key_sec1 vcek)
          with e | vkey
        · simp [hc, hs, hk]
        · rcases hv : C.verify_digest vkey
              (C.sha384_digest report.measurable_bytes) sig with e | u
          · simp [hc, hs, hk, hv]
          · cases u
            simp [hc, hs, hk, hv]
  · intro vcek sig ec h1 h2 h3 h4
    unfold verifyOpenssl
    simp [h1, h2, h3, h4]

/-- C1 witness: both implementations evaluated on concrete backends and a
concrete report — a backend whose primitive answers `false` makes
verification fail with the "does not sign" error, and a backend whose digest
check accepts makes verification succeed. -/
theorem verify_ok_iff_witness :
    verifyOpenssl testBackendOpenssl () testReport
      = .error "VCEK does not sign the attestation report" ∧
    verifyNossl testBackendNossl () testReport = .ok () :=
  ⟨(verify_ok_iff testBackendOpenssl testBackendNossl () testReport).2.2
      () () () rfl rfl rfl rfl,
   ((verify_ok_iff testBackendOpenssl testBackendNossl () testReport).2.1).mpr
      ⟨(), (), (), rfl, rfl, rfl, rfl⟩⟩

end Sev
